import Mathlib

/-!
Verification of the incremental search-and-select interaction engine of
`yt_dlx_tui.py` (class `YoutubeDownloader`) against its natural-language
specification.

Shallow embedding notes:

* The mutable attributes set in `YoutubeDownloader.__init__` become the fields
  of `TuiState`.  The rendering widgets (`self.results`, `self.input`) and the
  markdown produced by `update_results_markdown` are presentation-layer state,
  outside the specified core, and are not modelled.
* Each event handler of the class becomes a function `TuiState → ... →
  TuiState × List Effect`, where `Effect` records the externally observable
  side effects (worker dispatches and `self.notify` calls).
* Time is modelled in integer milliseconds.  The guard
  `time.time() - self._last_input_time >= DEBOUNCE_TIME` is written as
  `last_input_time + DEBOUNCE_TIME ≤ now`, which is the same inequality read
  over exact (non-truncating) arithmetic.
* `self._pending_task` holds at most one live debounce task; creating a new
  one cancels the previous (`self._pending_task.cancel()`), so the model
  stores the live task as `Option (query × creation time)` and replaces it on
  every input change.  A cancelled task never runs its body
  (`asyncio.CancelledError` is swallowed), so in the model it simply never
  fires.
* `search_video_worker` is decorated `@work(exclusive=True)`: starting a new
  search worker cancels the previous one at its `await` point, so a superseded
  worker never executes the lines that store its results.  The model gives
  every dispatched worker the value of a counter `search_worker_gen` that is
  incremented at dispatch; a completion event is processed only if its counter
  value is still current, which is exactly the exclusive-worker cancellation
  semantics.  Note the source has no generation check of its own.
* Python `%` on `int` and Lean `%` on `Int` (`Int.emod`) agree for positive
  moduli (both return a representative in `[0, n)`), so the wrap-around
  arithmetic of the navigation handlers is translated verbatim.
-/

namespace YtDlx

/-- A search result record as produced by `YouTubeFetcher.youtube_search`:
a dictionary with the keys `title` and `url`. -/
structure SearchResult where
  title : String
  url : String
  deriving Repr, DecidableEq

/-- Notification severity, mirroring the `severity=` strings passed to
`self.notify` in `yt_dlx_tui.py`. -/
inductive Severity where
  | information
  | error
  deriving Repr, DecidableEq

/-- Externally observable side effects of the interaction core:
worker dispatches, user notifications, and an exception escaping a worker
uncaught. -/
inductive Effect where
  | searchDispatched (query : String)
  | notify (msg : String) (sev : Severity)
  | downloadDispatched (url : String) (output_path : String) (title : String)
  | workerError (msg : String)
  deriving Repr, DecidableEq

/-- The mutable state of `YoutubeDownloader` (from `__init__`), plus
`search_worker_gen`, the dispatch counter that embeds the
`@work(exclusive=True)` cancellation policy of `search_video_worker`. -/
structure TuiState where
  last_input_time : Nat
  pending_task : Option (String × Nat)
  results_data : List SearchResult
  selected_index : Int
  focus_on_results : Bool
  search_worker_gen : Nat
  deriving Repr, DecidableEq

/-- `DEBOUNCE_TIME = 0.4` seconds, in milliseconds. -/
def DEBOUNCE_TIME : Nat := 400

/-- The state built by `YoutubeDownloader.__init__`. -/
def init_state : TuiState :=
  { last_input_time := 0
    pending_task := none
    results_data := []
    selected_index := -1
    focus_on_results := false
    search_worker_gen := 0 }

/-- Python `str.strip()` with no argument: remove whitespace from both ends
of the string.  (Defined over the character list so that it evaluates by
kernel reduction.) -/
def py_strip (s : String) : String :=
  String.mk
    (((s.data.dropWhile Char.isWhitespace).reverse.dropWhile
        Char.isWhitespace).reverse)

/-- `on_input_changed` (lines 64-71): record the change time, reset the
selection cursor, cancel any pending debounce task, and create a fresh one
holding the new input value. -/
def on_input_changed (s : TuiState) (value : String) (now : Nat) : TuiState :=
  { s with
    last_input_time := now
    selected_index := -1
    focus_on_results := false
    pending_task := some (value, now) }

/-- The body of `_debounced_search` (lines 73-83) after its
`asyncio.sleep(DEBOUNCE_TIME)` completes at time `now`, provided the task was
not cancelled.  If the quiet-period guard passes: a non-blank query dispatches
`search_video_worker` (incrementing the exclusive-worker counter), a blank
query clears `results_data`.  In all cases the task is finished afterwards, so
`pending_task` is emptied. -/
def debounced_search_fire (s : TuiState) (now : Nat) : TuiState × List Effect :=
  match s.pending_task with
  | none => (s, [])
  | some (query, _created) =>
    let s1 : TuiState := { s with pending_task := none }
    if s1.last_input_time + DEBOUNCE_TIME ≤ now then
      if py_strip query ≠ "" then
        ({ s1 with search_worker_gen := s1.search_worker_gen + 1 },
         [Effect.searchDispatched query])
      else
        ({ s1 with results_data := [] }, [])
    else (s1, [])

/-- Completion of `search_video_worker` (lines 85-90) for the worker
dispatched as generation `gen`.  If a newer worker has been dispatched
(`gen ≠ search_worker_gen`), the exclusive-worker policy has cancelled this
one at its `await`, so its body never stores results.  Otherwise an `ok`
outcome stores the results and resets `selected_index` (but not
`focus_on_results`); an exception from `YouTubeFetcher.youtube_search`
propagates out of the worker uncaught — the handler has no `try`/`except` and
calls no `notify`. -/
def search_video_worker (s : TuiState) (gen : Nat)
    (outcome : Except String (List SearchResult)) : TuiState × List Effect :=
  if gen = s.search_worker_gen then
    match outcome with
    | Except.ok results =>
        ({ s with results_data := results, selected_index := -1 }, [])
    | Except.error e => (s, [Effect.workerError e])
  else (s, [])

/-- `action_move_down` (lines 96-104), translated verbatim. -/
def action_move_down (s : TuiState) : TuiState :=
  if s.results_data = [] then s
  else if s.focus_on_results = false then
    { s with focus_on_results := true, selected_index := 0 }
  else
    { s with selected_index :=
        (s.selected_index + 1) % (s.results_data.length : Int) }

/-- `action_move_up` (lines 106-120), translated verbatim.  The
`self.set_focus(self.input)` call on the exit-to-input branch is a widget
operation and is not modelled. -/
def action_move_up (s : TuiState) : TuiState :=
  if s.results_data = [] then s
  else if s.focus_on_results = true ∧ s.selected_index = 0 then
    { s with focus_on_results := false, selected_index := -1 }
  else if s.focus_on_results = true then
    { s with selected_index :=
        (s.selected_index - 1) % (s.results_data.length : Int) }
  else s

/-- `action_activate` (lines 126-136): on a valid results-focused selection,
sanitize the title, notify the user, and dispatch `download_worker`; `home`
stands for `Path.home()`.  The `mkdir` filesystem call is not modelled. -/
def action_activate (s : TuiState) (home : String) : TuiState × List Effect :=
  if s.focus_on_results = true ∧ 0 ≤ s.selected_index ∧
      s.selected_index < (s.results_data.length : Int) then
    let video := s.results_data.getD s.selected_index.toNat
      { title := "", url := "" }
    let title := (video.title.replace "/" "_").replace ":" "_"
    let output_file := home ++ "/Downloads/" ++ title ++ ".mp4"
    (s, [Effect.notify ("⬇️ Downloading: " ++ title) Severity.information,
         Effect.downloadDispatched video.url output_file title])
  else (s, [])

/-- Keyword-argument lookup for the Python call-binding model. -/
def lookup_kw (kwargs : List (String × String)) (p : String) : Option String :=
  (kwargs.find? (fun kv => kv.1 == p)).map (fun kv => kv.2)

/-- Python call binding for `YouTubeFetcher.download_video(url, fmt,
output_path)` (yt_dlx_backend.py line 102): all three parameters are
positional-or-keyword with no defaults, so a call binds successfully iff every
one of them receives a value from the supplied keyword arguments. -/
def bind_download_video (kwargs : List (String × String)) :
    Option (String × String × String) :=
  match lookup_kw kwargs "url", lookup_kw kwargs "fmt",
      lookup_kw kwargs "output_path" with
  | some u, some f, some o => some (u, f, o)
  | _, _, _ => none

/-- `download_worker` (lines 138-146): runs
`YouTubeFetcher.download_video(url=url, output_path=output_path)` in a thread
— supplying only those two keyword arguments — and converts the outcome into
exactly one notification.  `download_video` abstracts the body of the backend
function (network/filesystem work, out of scope); it is only reached if the
call binds. -/
def download_worker (s : TuiState) (url output_path title : String)
    (download_video : String → String → String → Except String Unit) :
    TuiState × List Effect :=
  let call : Except String Unit :=
    match bind_download_video [("url", url), ("output_path", output_path)] with
    | some (u, f, o) => download_video u f o
    | none =>
        Except.error "download_video() missing 1 required positional argument: fmt"
  match call with
  | Except.ok _ =>
      (s, [Effect.notify ("✅ Downloaded: " ++ title) Severity.information])
  | Except.error e =>
      (s, [Effect.notify ("❌ Failed: " ++ title ++ " (" ++ e ++ ")") Severity.error])

/-- One scheduler step ahead of an input event at time `now`: the live
debounce task, if any, fires first when its sleep (started at its creation
time) has already elapsed.  A task whose sleep has not elapsed by the time the
next input event arrives is cancelled by `on_input_changed` before it can
run. -/
def fire_due (s : TuiState) (now : Nat) : TuiState × List Effect :=
  match s.pending_task with
  | some (_q, created) =>
      if created + DEBOUNCE_TIME ≤ now then
        debounced_search_fire s (created + DEBOUNCE_TIME)
      else (s, [])
  | none => (s, [])

/-- Deliver one timed input event `(time, value)`: fire any due debounce task
first, then run `on_input_changed`. -/
def step_input (s : TuiState) (ev : Nat × String) : TuiState × List Effect :=
  let fd := fire_due s ev.1
  (on_input_changed fd.1 ev.2 ev.1, fd.2)

/-- Deliver a time-ordered list of input events, collecting all effects. -/
def run_burst (s : TuiState) (evs : List (Nat × String)) :
    TuiState × List Effect :=
  match evs with
  | [] => (s, [])
  | ev :: rest =>
      let st := step_input s ev
      let tail := run_burst st.1 rest
      (tail.1, st.2 ++ tail.2)

/-- Deliver a burst of input events and then stay quiet, letting the surviving
debounce task (if any) fire when its sleep elapses. -/
def run_burst_then_quiet (s : TuiState) (evs : List (Nat × String)) :
    TuiState × List Effect :=
  let rb := run_burst s evs
  match rb.1.pending_task with
  | some (_q, created) =>
      let fin := debounced_search_fire rb.1 (created + DEBOUNCE_TIME)
      (fin.1, rb.2 ++ fin.2)
  | none => rb

/-- Consecutive events of the burst are spaced less than the quiet period
apart. -/
def valid_gaps : List (Nat × String) → Prop
  | [] => True
  | [_] => True
  | a :: b :: rest => b.1 < a.1 + DEBOUNCE_TIME ∧ valid_gaps (b :: rest)

instance valid_gaps_decidable :
    (evs : List (Nat × String)) → Decidable (valid_gaps evs)
  | [] => Decidable.isTrue trivial
  | [_] => Decidable.isTrue trivial
  | _ :: b :: rest =>
      have : Decidable (valid_gaps (b :: rest)) :=
        valid_gaps_decidable (b :: rest)
      inferInstanceAs (Decidable (_ ∧ _))

/-- The SelectionCursor validity predicate of the specification: the index is
a valid position whenever the focus is on the results, and is `-1` whenever
the focus is on the input field. -/
def cursor_ok (s : TuiState) : Prop :=
  (s.focus_on_results = true →
    0 ≤ s.selected_index ∧ s.selected_index < (s.results_data.length : Int)) ∧
  (s.focus_on_results = false → s.selected_index = -1)

instance cursor_ok_decidable (s : TuiState) : Decidable (cursor_ok s) :=
  inferInstanceAs (Decidable (_ ∧ _))

/-- States reachable from `__init__` by the event handlers, under realistic
scheduling side conditions: a debounce task fires only while it is still the
live pending task and only after its sleep has elapsed, and a search worker
completing must have been dispatched (its generation is positive and at most
the current dispatch counter). -/
inductive Reachable : TuiState → Prop where
  | init : Reachable init_state
  | input (s : TuiState) (q : String) (t : Nat) :
      Reachable s → Reachable (on_input_changed s q t)
  | fire (s : TuiState) (t : Nat) (q : String) (c : Nat) :
      Reachable s → s.pending_task = some (q, c) → c + DEBOUNCE_TIME ≤ t →
      Reachable (debounced_search_fire s t).1
  | complete (s : TuiState) (gen : Nat) (out : Except String (List SearchResult)) :
      Reachable s → 0 < gen → gen ≤ s.search_worker_gen →
      Reachable (search_video_worker s gen out).1
  | down (s : TuiState) : Reachable s → Reachable (action_move_down s)
  | up (s : TuiState) : Reachable s → Reachable (action_move_up s)
  | activate (s : TuiState) (home : String) :
      Reachable s → Reachable (action_activate s home).1

/-- Concrete result records used by the counterexample traces. -/
def rA : SearchResult := { title := "Video A", url := "urlA" }

/-- Second concrete result record. -/
def rB : SearchResult := { title := "Video B", url := "urlB" }

/-- Trace: the user types `a` at time 0. -/
def traceS1 : TuiState := on_input_changed init_state "a" 0

/-- Trace: the debounce task for `a` fires at time 400 and dispatches search
worker 1. -/
def traceS2 : TuiState := (debounced_search_fire traceS1 400).1

/-- Trace: search worker 1 completes and stores `[rA]`. -/
def traceS3 : TuiState := (search_video_worker traceS2 1 (Except.ok [rA])).1

/-- Trace: the user presses ctrl+j, focusing the results on index 0. -/
def traceS4 : TuiState := action_move_down traceS3

/-- Trace: the user types `ab` at time 1000 while browsing the results. -/
def traceS5 : TuiState := on_input_changed traceS4 "ab" 1000

/-- Trace: the debounce task for `ab` fires at time 1400 and dispatches search
worker 2, which is now in flight. -/
def traceS6 : TuiState := (debounced_search_fire traceS5 1400).1

/-- Trace: while worker 2 is in flight the user presses ctrl+j; the stale
result set `[rA]` is still displayed and non-empty, so the cursor moves onto
the results. -/
def traceS7 : TuiState := action_move_down traceS6

/-- Trace (blank-query variant): from `traceS4` the user clears the input at
time 1000. -/
def traceT5 : TuiState := on_input_changed traceS4 "" 1000

/-- Trace: the user presses ctrl+j while the blank-query debounce task is
pending; the stale result set `[rA]` is non-empty, so the cursor moves onto
the results. -/
def traceT6 : TuiState := action_move_down traceT5

/-- Trace: the blank-query debounce task fires at time 1400 and clears
`results_data`, leaving a results-focused cursor over an empty result set. -/
def traceT7 : TuiState := (debounced_search_fire traceT6 1400).1

/-- Query-change trace for C1: the user types `x` at time 0. -/
def traceU1 : TuiState := on_input_changed init_state "x" 0

/-- The debounce task for `x` fires at time 400 and dispatches search
worker 1. -/
def traceU2 : TuiState := (debounced_search_fire traceU1 400).1

/-- While worker 1 is in flight, the user types `xy` at time 500 — a
query-change event after the search was dispatched, so the spec counts that
search as stale from here on. -/
def traceU3 : TuiState := on_input_changed traceU2 "xy" 500

/-- Concrete state used to instantiate the C8 theorem: two results, cursor on
the second one. -/
def w8 : TuiState :=
  { init_state with
    results_data := [rA, rB]
    focus_on_results := true
    selected_index := 1 }

/-- Concrete state used to instantiate the C9 theorem: one result, cursor on
it. -/
def w9 : TuiState :=
  { init_state with
    results_data := [rA]
    focus_on_results := true
    selected_index := 0 }

/-- Recognizer for notification effects, used to state that an effect trace
contains no `notify` call. -/
def isNotifyEffect : Effect → Bool
  | Effect.notify _ _ => true
  | _ => false

lemma length_pos_int {s : TuiState} (h : s.results_data ≠ []) :
    0 < (s.results_data.length : Int) := by
  have := List.length_pos.mpr h
  exact_mod_cast this

lemma action_activate_fst (s : TuiState) (home : String) :
    (action_activate s home).1 = s := by
  unfold action_activate
  split_ifs <;> rfl

lemma action_move_down_focused (s : TuiState) (hne : s.results_data ≠ [])
    (hf : s.focus_on_results = true) :
    action_move_down s =
      { s with selected_index :=
          (s.selected_index + 1) % (s.results_data.length : Int) } := by
  unfold action_move_down
  rw [if_neg hne, if_neg (by simp [hf])]

lemma move_down_iterate (k : Nat) : ∀ s : TuiState, s.results_data ≠ [] →
    s.focus_on_results = true → 0 ≤ s.selected_index →
    s.selected_index < (s.results_data.length : Int) →
    action_move_down^[k] s =
      { s with selected_index :=
          (s.selected_index + (k : Int)) % (s.results_data.length : Int) } := by
  induction k with
  | zero =>
      intro s hne hf h0 hlt
      simp only [Function.iterate_zero, id_eq, Nat.cast_zero, add_zero]
      rw [Int.emod_eq_of_lt h0 hlt]
  | succ k ih =>
      intro s hne hf h0 hlt
      rw [Function.iterate_succ_apply, action_move_down_focused s hne hf]
      have hlen : 0 < (s.results_data.length : Int) := length_pos_int hne
      have h1 : 0 ≤ (s.selected_index + 1) % (s.results_data.length : Int) :=
        Int.emod_nonneg _ (ne_of_gt hlen)
      have h2 : (s.selected_index + 1) % (s.results_data.length : Int) <
          (s.results_data.length : Int) := Int.emod_lt_of_pos _ hlen
      rw [ih { s with selected_index :=
            (s.selected_index + 1) % (s.results_data.length : Int) }
          hne hf h1 h2]
      have key : ((s.selected_index + 1) % (s.results_data.length : Int)
            + (k : Int)) % (s.results_data.length : Int)
          = (s.selected_index + ((k + 1 : Nat) : Int)) %
              (s.results_data.length : Int) := by
        conv_lhs => rw [Int.add_emod]
        rw [Int.emod_emod_of_dvd _ dvd_rfl, ← Int.add_emod]
        congr 1
        push_cast
        ring
      rw [key]

/-- C8: `move_down` from an input-focused cursor with a non-empty ResultSet
yields `(Results, 0)`; from a results-focused cursor it advances the index to
`(i + 1) mod N`; iterating it `N` times from a results-focused cursor with a
valid index is the identity on the index (down wraps from the last item to the
first); and it is a no-op when the ResultSet is empty. -/
theorem C8_move_down_ring :
    (∀ s : TuiState, s.results_data ≠ [] → s.focus_on_results = false →
      action_move_down s =
        { s with focus_on_results := true, selected_index := 0 }) ∧
    (∀ s : TuiState, s.results_data ≠ [] → s.focus_on_results = true →
      action_move_down s =
        { s with selected_index :=
            (s.selected_index + 1) % (s.results_data.length : Int) }) ∧
    (∀ s : TuiState, s.results_data ≠ [] → s.focus_on_results = true →
      0 ≤ s.selected_index → s.selected_index < (s.results_data.length : Int) →
      (action_move_down^[s.results_data.length] s).selected_index =
        s.selected_index) ∧
    (∀ s : TuiState, s.results_data = [] → action_move_down s = s) := by
  refine ⟨?_, ?_, ?_, ?_⟩
  · intro s hne hf
    unfold action_move_down
    rw [if_neg hne, if_pos hf]
  · intro s hne hf
    exact action_move_down_focused s hne hf
  · intro s hne hf h0 hlt
    rw [move_down_iterate _ s hne hf h0 hlt]
    show (s.selected_index + (s.results_data.length : Int)) %
        (s.results_data.length : Int) = s.selected_index
    have h2 : s.selected_index + (s.results_data.length : Int)
        = s.selected_index + (s.results_data.length : Int) * 1 := by ring
    rw [h2, Int.add_mul_emod_self_left, Int.emod_eq_of_lt h0 hlt]
  · intro s he
    unfold action_move_down
    rw [if_pos he]

/-- Witness for C8: iterating `move_down` twice over a two-element ResultSet
returns the cursor to its starting index. -/
theorem C8_witness :
    (action_move_down^[w8.results_data.length] w8).selected_index =
      w8.selected_index :=
  C8_move_down_ring.2.2.1 w8 (by decide) (by decide) (by decide) (by decide)

/-- C9 (amended): with a non-empty ResultSet, `move_up` from `(Results, 0)`
exits to `(Input, -1)` and never wraps, and from `(Results, i)` with `i > 0`
it moves to `(i - 1) mod N`; it is a no-op when the focus is on the input
field; and — the amendment — it is also a no-op whenever the ResultSet is
empty, even from a results-focused cursor. -/
theorem C9_move_up_asymmetry :
    (∀ s : TuiState, s.results_data ≠ [] → s.focus_on_results = true →
      s.selected_index = 0 →
      action_move_up s =
        { s with focus_on_results := false, selected_index := -1 }) ∧
    (∀ s : TuiState, s.results_data ≠ [] → s.focus_on_results = true →
      0 < s.selected_index →
      action_move_up s =
        { s with selected_index :=
            (s.selected_index - 1) % (s.results_data.length : Int) }) ∧
    (∀ s : TuiState, s.focus_on_results = false → action_move_up s = s) ∧
    (∀ s : TuiState, s.results_data = [] → action_move_up s = s) := by
  refine ⟨?_, ?_, ?_, ?_⟩
  · intro s hne hf h0
    unfold action_move_up
    rw [if_neg hne, if_pos ⟨hf, h0⟩]
  · intro s hne hf hpos
    unfold action_move_up
    rw [if_neg hne, if_neg (fun hc => absurd hc.2 (by omega)), if_pos hf]
  · intro s hf
    by_cases hres : s.results_data = []
    · unfold action_move_up
      rw [if_pos hres]
    · unfold action_move_up
      rw [if_neg hres, if_neg (by simp [hf]), if_neg (by simp [hf])]
  · intro s he
    unfold action_move_up
    rw [if_pos he]

lemma reachable_traceS4 : Reachable traceS4 := by
  have h1 : Reachable traceS1 := Reachable.input init_state "a" 0 Reachable.init
  have h2 : Reachable traceS2 :=
    Reachable.fire traceS1 400 "a" 0 h1 (by decide) (by decide)
  have h3 : Reachable traceS3 :=
    Reachable.complete traceS2 1 (Except.ok [rA]) h2 (by decide) (by decide)
  exact Reachable.down traceS3 h3

lemma reachable_traceS6 : Reachable traceS6 := by
  have h5 : Reachable traceS5 :=
    Reachable.input traceS4 "ab" 1000 reachable_traceS4
  exact Reachable.fire traceS5 1400 "ab" 1000 h5 (by decide) (by decide)

lemma reachable_traceS7 : Reachable traceS7 :=
  Reachable.down traceS6 reachable_traceS6

lemma reachable_traceT7 : Reachable traceT7 := by
  have h5 : Reachable traceT5 :=
    Reachable.input traceS4 "" 1000 reachable_traceS4
  have h6 : Reachable traceT6 := Reachable.down traceT5 h5
  exact Reachable.fire traceT6 1400 "" 1000 h6 (by decide) (by decide)

/-- Counterexample to C9 as stated: the reachable state `traceT7` — obtained
by browsing results, clearing the query, pressing ctrl+j during the debounce
wait, and letting the blank-query debounce fire — has a results-focused
cursor at index 0 over an empty ResultSet, and `move_up` from it is a no-op
(the empty-check returns first), not the claimed exit to `(Input, -1)`. -/
theorem C9_counterexample :
    Reachable traceT7 ∧ traceT7.focus_on_results = true ∧
    traceT7.selected_index = 0 ∧ action_move_up traceT7 = traceT7 ∧
    ¬ ((action_move_up traceT7).focus_on_results = false ∧
       (action_move_up traceT7).selected_index = -1) :=
  ⟨reachable_traceT7, by decide, by decide, by decide, by decide⟩

/-- Witness for C9: `move_up` from `(Results, 0)` over a one-element
ResultSet exits to the input field. -/
theorem C9_witness :
    action_move_up w9 =
      { w9 with focus_on_results := false, selected_index := -1 } :=
  C9_move_up_asymmetry.1 w9 (by decide) (by decide) (by decide)

/-- C10: `confirm` (`action_activate`) with an input-focused cursor or an
out-of-range index is a complete no-op — the state is unchanged and no
notification or download dispatch is emitted. -/
theorem C10_confirm_noop (s : TuiState) (home : String)
    (h : ¬ (s.focus_on_results = true ∧ 0 ≤ s.selected_index ∧
        s.selected_index < (s.results_data.length : Int))) :
    action_activate s home = (s, []) := by
  unfold action_activate
  rw [if_neg h]

/-- Witness for C10: activating from the initial (input-focused) state does
nothing. -/
theorem C10_witness : action_activate init_state "/home/user" = (init_state, []) :=
  C10_confirm_noop init_state "/home/user" (by decide)

/-- C4 (amended): the cursor validity predicate holds initially and is
preserved by the input-change handler, `move_down`, `move_up` and `confirm`;
it is not an invariant of all reachable states because fresh-result
application and the blank-query clear break it (see the counterexample). -/
theorem C4_cursor_invariant_per_op :
    cursor_ok init_state ∧
    (∀ (s : TuiState) (q : String) (t : Nat), cursor_ok s →
      cursor_ok (on_input_changed s q t)) ∧
    (∀ s : TuiState, cursor_ok s → cursor_ok (action_move_down s)) ∧
    (∀ s : TuiState, cursor_ok s → cursor_ok (action_move_up s)) ∧
    (∀ (s : TuiState) (home : String), cursor_ok s →
      cursor_ok (action_activate s home).1) := by
  refine ⟨by decide, ?_, ?_, ?_, ?_⟩
  · intro s q t _h
    exact ⟨fun hf => absurd hf (by simp [on_input_changed]),
      fun _ => rfl⟩
  · intro s hs
    unfold action_move_down
    split_ifs with h1 h2
    · exact hs
    · constructor
      · intro _
        show (0 : Int) ≤ 0 ∧ (0 : Int) < (s.results_data.length : Int)
        exact ⟨le_refl 0, length_pos_int h1⟩
      · intro hcontra
        exact Bool.noConfusion (show true = false from hcontra)
    · have hf : s.focus_on_results = true := by
        revert h2
        cases s.focus_on_results <;> simp
      have hlen : 0 < (s.results_data.length : Int) := length_pos_int h1
      constructor
      · intro _
        show 0 ≤ (s.selected_index + 1) % (s.results_data.length : Int) ∧
          (s.selected_index + 1) % (s.results_data.length : Int) <
            (s.results_data.length : Int)
        exact ⟨Int.emod_nonneg _ (ne_of_gt hlen), Int.emod_lt_of_pos _ hlen⟩
      · intro hcontra
        rw [show ({ s with selected_index :=
            (s.selected_index + 1) % (s.results_data.length : Int)
          } : TuiState).focus_on_results = s.focus_on_results from rfl, hf]
          at hcontra
        exact Bool.noConfusion hcontra
  · intro s hs
    unfold action_move_up
    split_ifs with h1 h2 h3
    · exact hs
    · exact ⟨fun hf => Bool.noConfusion (show false = true from hf),
        fun _ => rfl⟩
    · have hlen : 0 < (s.results_data.length : Int) := length_pos_int h1
      constructor
      · intro _
        show 0 ≤ (s.selected_index - 1) % (s.results_data.length : Int) ∧
          (s.selected_index - 1) % (s.results_data.length : Int) <
            (s.results_data.length : Int)
        exact ⟨Int.emod_nonneg _ (ne_of_gt hlen), Int.emod_lt_of_pos _ hlen⟩
      · intro hcontra
        rw [show ({ s with selected_index :=
            (s.selected_index - 1) % (s.results_data.length : Int)
          } : TuiState).focus_on_results = s.focus_on_results from rfl, h3]
          at hcontra
        exact Bool.noConfusion hcontra
    · exact hs
  · intro s home hs
    rw [action_activate_fst s home]
    exact hs

/-- Witness for C4: the per-operation preservation applied at a concrete
results-focused state. -/
theorem C4_witness : cursor_ok (action_move_down w8) :=
  C4_cursor_invariant_per_op.2.2.1 w8 (by decide)

/-- Counterexample to C4 as stated: `traceS7` is reachable and satisfies the
cursor predicate, yet applying a fresh ResultSet (the in-flight worker 2
completing) yields a state with a results-focused cursor and index `-1`,
because `search_video_worker` resets `selected_index` without resetting
`focus_on_results`.  So the predicate is not preserved by every operation on
reachable states. -/
theorem C4_counterexample :
    Reachable traceS7 ∧ cursor_ok traceS7 ∧
    ¬ cursor_ok (search_video_worker traceS7 2 (Except.ok [rB])).1 :=
  ⟨reachable_traceS7, by decide, by decide⟩

/-- C5 (amended): a query-change event resets both `selected_index` and
`focus_on_results`; a fresh ResultSet arrival stores the results and resets
`selected_index` to `-1`, but leaves `focus_on_results` unchanged (the worker
body never touches it). -/
theorem C5_cursor_reset_amended :
    (∀ (s : TuiState) (q : String) (t : Nat),
      (on_input_changed s q t).selected_index = -1 ∧
      (on_input_changed s q t).focus_on_results = false) ∧
    (∀ (s : TuiState) (rs : List SearchResult),
      (search_video_worker s s.search_worker_gen (Except.ok rs)).1.results_data
          = rs ∧
      (search_video_worker s s.search_worker_gen
          (Except.ok rs)).1.selected_index = -1 ∧
      (search_video_worker s s.search_worker_gen
          (Except.ok rs)).1.focus_on_results = s.focus_on_results) := by
  constructor
  · intro s q t
    exact ⟨rfl, rfl⟩
  · intro s rs
    unfold search_video_worker
    rw [if_pos rfl]
    exact ⟨rfl, rfl, rfl⟩

/-- Counterexample to C5 as stated: in the reachable state `traceS7` the
cursor is results-focused; when the in-flight worker 2 delivers a fresh
ResultSet, `focus_on_results` remains `true` instead of being reset to
`false` — `search_video_worker` only resets `selected_index`. -/
theorem C5_counterexample :
    Reachable traceS7 ∧ traceS7.search_worker_gen = 2 ∧
    ¬ ((search_video_worker traceS7 2
        (Except.ok [rB])).1.focus_on_results = false) :=
  ⟨reachable_traceS7, by decide, by decide⟩

/-- C6 (amended): a query-change event resets the cursor to `(Input, -1)` but
leaves the ResultSet untouched; the ResultSet is cleared only when the
debounce timer later fires with a blank query. -/
theorem C6_query_change_amended :
    (∀ (s : TuiState) (q : String) (t : Nat),
      (on_input_changed s q t).selected_index = -1 ∧
      (on_input_changed s q t).focus_on_results = false ∧
      (on_input_changed s q t).results_data = s.results_data) ∧
    (∀ (s : TuiState) (q : String) (c t : Nat),
      s.pending_task = some (q, c) → py_strip q = "" →
      s.last_input_time + DEBOUNCE_TIME ≤ t →
      (debounced_search_fire s t).1.results_data = [] ∧
      (debounced_search_fire s t).2 = []) := by
  constructor
  · intro s q t
    exact ⟨rfl, rfl, rfl⟩
  · intro s q c t hpend hblank hquiet
    simp only [debounced_search_fire, hpend]
    rw [if_pos hquiet, if_neg (fun hne => hne hblank)]
    exact ⟨rfl, rfl⟩

/-- Witness for C6 (amended): the blank-query debounce firing in the
`traceT6` scenario clears the ResultSet without dispatching a search. -/
theorem C6_witness :
    (debounced_search_fire traceT6 1400).1.results_data = [] ∧
    (debounced_search_fire traceT6 1400).2 = [] :=
  C6_query_change_amended.2 traceT6 "" 1000 1400 (by decide) (by decide)
    (by decide)

/-- Counterexample to C6 as stated: a query-change event in the reachable
state `traceS3` (which holds one result) leaves `results_data` non-empty —
`on_input_changed` performs no clearing. -/
theorem C6_counterexample :
    Reachable traceS3 ∧ traceS3.results_data = [rA] ∧
    ¬ ((on_input_changed traceS3 "b" 900).results_data = []) := by
  refine ⟨?_, by decide, by decide⟩
  have h1 : Reachable traceS1 := Reachable.input init_state "a" 0 Reachable.init
  have h2 : Reachable traceS2 :=
    Reachable.fire traceS1 400 "a" 0 h1 (by decide) (by decide)
  exact Reachable.complete traceS2 1 (Except.ok [rA]) h2 (by decide) (by decide)

/-- C7 (amended): when the SearchProvider raises during the current search,
the ResultSet (indeed the whole state) is left unchanged, but the exception
is not caught in the worker and no notification is issued: it escapes
`search_video_worker` as an unhandled worker error. -/
theorem C7_search_error_amended (s : TuiState) (e : String) :
    search_video_worker s s.search_worker_gen (Except.error e) =
      (s, [Effect.workerError e]) := by
  unfold search_video_worker
  rw [if_pos rfl]

/-- Counterexample to C7 as stated: in the reachable state `traceS6` the
current search worker fails; the state is unchanged but the effect trace
contains no notification at all — the worker has no `try`/`except` and never
calls `notify`, so the exception escapes uncaught instead of being reported
via the notification sink. -/
theorem C7_counterexample :
    Reachable traceS6 ∧
    search_video_worker traceS6 2 (Except.error "network down") =
      (traceS6, [Effect.workerError "network down"]) ∧
    ((search_video_worker traceS6 2 (Except.error "network down")).2.all
      (fun e => !(isNotifyEffect e))) = true :=
  ⟨reachable_traceS6, by decide, by decide⟩

/-- Counterexample to C1 as stated: worker 1 was dispatched before the `xy`
query-change, so by the claim its completion is stale and must leave the
ResultSet unchanged; but the code has no query generation counter — worker 1
is still the most recently dispatched worker, so its completion is applied and
the ResultSet changes from `[]` to `[rA]`. -/
theorem C1_counterexample :
    Reachable traceU3 ∧ traceU3.results_data = [] ∧
    (search_video_worker traceU3 1 (Except.ok [rA])).1.results_data = [rA] ∧
    ¬ ((search_video_worker traceU3 1 (Except.ok [rA])).1.results_data
        = traceU3.results_data) := by
  refine ⟨?_, by decide, by decide, by decide⟩
  have h1 : Reachable traceU1 := Reachable.input init_state "x" 0 Reachable.init
  have h2 : Reachable traceU2 :=
    Reachable.fire traceU1 400 "x" 0 h1 (by decide) (by decide)
  exact Reachable.input traceU2 "xy" 500 h2

/-- C1 (amended): a completing search is discarded — state and effects both
unchanged — precisely when it has been superseded by a newer search dispatch
(the `@work(exclusive=True)` cancellation); a query-change event alone does
not invalidate an in-flight search. -/
theorem C1_stale_discard_amended (s : TuiState) (gen : Nat)
    (out : Except String (List SearchResult))
    (h : gen ≠ s.search_worker_gen) :
    search_video_worker s gen out = (s, []) := by
  unfold search_video_worker
  rw [if_neg h]

/-- Witness for C1 (amended): worker 1, superseded by the dispatch of
worker 2 in `traceS6`, completes and is discarded. -/
theorem C1_witness :
    search_video_worker traceS6 1 (Except.ok [rA]) = (traceS6, []) :=
  C1_stale_discard_amended traceS6 1 (Except.ok [rA]) (by decide)

/-- C2: `download_worker` runs `download_video(url=url,
output_path=output_path)`, which cannot bind because `fmt` has no default;
whatever the download body would do, the call raises, the `except` branch
catches it, exactly one failure notification is emitted, and the state
(SelectionState and ResultSet) is unchanged — the success branch is
unreachable from the TUI. -/
theorem C2_download_always_fails (s : TuiState)
    (url output_path title : String)
    (download_video : String → String → String → Except String Unit) :
    download_worker s url output_path title download_video =
      (s, [Effect.notify
        ("❌ Failed: " ++ title ++ " ("
          ++ "download_video() missing 1 required positional argument: fmt"
          ++ ")")
        Severity.error]) := rfl

lemma fire_due_skip (s : TuiState) (now : Nat)
    (h : ∀ q c, s.pending_task = some (q, c) → now < c + DEBOUNCE_TIME) :
    fire_due s now = (s, []) := by
  match hp : s.pending_task with
  | none => simp only [fire_due, hp]
  | some (q, c) =>
      simp only [fire_due, hp]
      rw [if_neg (Nat.not_le.mpr (h q c hp))]

lemma on_input_changed_comp (s : TuiState) (a : String) (b : Nat)
    (c : String) (d : Nat) :
    on_input_changed (on_input_changed s a b) c d = on_input_changed s c d :=
  rfl

lemma run_burst_cons (s : TuiState) (ev : Nat × String)
    (rest : List (Nat × String)) :
    run_burst s (ev :: rest) =
      ((run_burst (step_input s ev).1 rest).1,
       (step_input s ev).2 ++ (run_burst (step_input s ev).1 rest).2) := rfl

lemma run_burst_coalesce : ∀ (rest : List (Nat × String))
    (ev : Nat × String) (s : TuiState), valid_gaps (ev :: rest) →
    (∀ q c, s.pending_task = some (q, c) → ev.1 < c + DEBOUNCE_TIME) →
    run_burst s (ev :: rest) =
      (on_input_changed s ((ev :: rest).getLastD ev).2
        ((ev :: rest).getLastD ev).1, []) := by
  intro rest
  induction rest with
  | nil =>
      intro ev s _ hstart
      have hfd : fire_due s ev.1 = (s, []) := fire_due_skip s ev.1 hstart
      rw [run_burst_cons]
      simp only [step_input, hfd, List.getLastD_cons, List.getLastD_nil]
      rfl
  | cons ev2 rest2 ih =>
      intro ev s hgaps hstart
      have hrel : ev2.1 < ev.1 + DEBOUNCE_TIME := hgaps.1
      have hgaps2 : valid_gaps (ev2 :: rest2) := hgaps.2
      have hfd : fire_due s ev.1 = (s, []) := fire_due_skip s ev.1 hstart
      have hstep : step_input s ev = (on_input_changed s ev.2 ev.1, []) := by
        simp only [step_input, hfd]
      have htail := ih ev2 (on_input_changed s ev.2 ev.1) hgaps2 ?_
      · rw [run_burst_cons, hstep, htail]
        simp only [on_input_changed_comp, List.getLastD_cons]
        rfl
      · intro q c hp
        have hqc : (ev.2, ev.1) = (q, c) := Option.some.inj hp
        cases hqc
        exact hrel

/-- C3: for any finite burst of input events each arriving strictly less than
the quiet period after the previous one, started with no pending debounce
task and followed by quiet, only the last event of the burst fires: a
non-blank last query produces exactly one search dispatch carrying that
query (and the ResultSet is untouched), while a blank last query clears the
ResultSet and dispatches nothing. -/
theorem C3_debounce_coalesce (s : TuiState) (evs : List (Nat × String))
    (hne : evs ≠ []) (hpend : s.pending_task = none)
    (hgaps : valid_gaps evs) :
    (py_strip (evs.getLastD (0, "")).2 ≠ "" →
      run_burst_then_quiet s evs =
        ({ s with
            last_input_time := (evs.getLastD (0, "")).1
            pending_task := none
            selected_index := -1
            focus_on_results := false
            search_worker_gen := s.search_worker_gen + 1 },
         [Effect.searchDispatched (evs.getLastD (0, "")).2])) ∧
    (py_strip (evs.getLastD (0, "")).2 = "" →
      run_burst_then_quiet s evs =
        ({ s with
            last_input_time := (evs.getLastD (0, "")).1
            pending_task := none
            selected_index := -1
            focus_on_results := false
            results_data := [] },
         [])) := by
  cases evs with
  | nil => exact absurd rfl hne
  | cons ev rest =>
      rw [show (ev :: rest).getLastD (0, "") = (ev :: rest).getLastD ev from
        by rw [List.getLastD_cons, List.getLastD_cons]]
      have hrb := run_burst_coalesce rest ev s hgaps
        (fun q c hp => by rw [hpend] at hp; exact Option.noConfusion hp)
      constructor
      · intro hq
        simp only [run_burst_then_quiet, hrb, on_input_changed,
          debounced_search_fire]
        rw [if_pos (Nat.le_refl _), if_pos hq]
        rfl
      · intro hq
        simp only [run_burst_then_quiet, hrb, on_input_changed,
          debounced_search_fire]
        rw [if_pos (Nat.le_refl _), if_neg (fun hne2 => hne2 hq)]
        rfl

/-- Witness for C3: the spec scenario — `j`, `jo`, `joh` typed 50ms apart,
then quiet — produces exactly one search dispatch, carrying `joh`. -/
theorem C3_witness :
    (run_burst_then_quiet init_state [(0, "j"), (50, "jo"), (100, "joh")]).2 =
      [Effect.searchDispatched "joh"] := by
  have h := C3_debounce_coalesce init_state [(0, "j"), (50, "jo"), (100, "joh")]
    (by decide) rfl (by decide)
  rw [(h.1 (by decide))]
  rfl

end YtDlx
